import Mathlib

/-
Verification of the job-dispatch client (src/client/client.py, src/client/jobs.py)
against its specification.

The embedding mirrors the Python source. External collaborators that the spec
places out of scope (PIL image encode/decode, the base64 codec, the filesystem
branch of the image converter, the HTTP stack) are modelled by small executable
stand-ins with the properties the client relies on: the PIL codec is an injective
serialize with a partial inverse, base64 is an injective string codec with a
partial inverse, and the server is a function from attempt index to either a
raised transport exception or a raw response.
-/

namespace Workflows

/-- Raw byte strings, as lists of byte values. -/
abbrev Bytes := List Nat

/-- Python exceptions that the client code can raise or catch. -/
inductive Exc
  /-- An `assert cond, msg` failure. -/
  | assertionError (msg : String)
  /-- `ValueError` (ImageConverter unsupported input, PIL open failure). -/
  | valueError (msg : String)
  /-- `TypeError` (`base64.b64decode(None)`, `json.dumps` on non-serializable). -/
  | typeError (msg : String)
  /-- `response.json()` failed to parse the body. -/
  | jsonDecodeError
  /-- `binascii.Error`: the result field is not valid base64. -/
  | binasciiError
  /-- A `requests` exception: connection failure or timeout. -/
  | transportExc (msg : String)
deriving DecidableEq, Repr

/-- Model of the external PIL image object: its pixel payload. -/
structure PILImage where
  data : Bytes
deriving DecidableEq, Repr

/-- The PNG signature bytes that open every PNG stream. -/
def pngMagic : Bytes := [137, 80, 78, 71]

/-- Model of PIL `image.save(buf, format="PNG")`: an injective byte serialization. -/
def pilSavePng (img : PILImage) : Bytes := pngMagic ++ img.data

/-- Model of PIL `Image.open`: succeeds exactly on streams carrying the signature. -/
def pilOpen (b : Bytes) : Option PILImage :=
  if pngMagic.isPrefixOf b then some (PILImage.mk (b.drop 4)) else none

/-- The sixteen digits of the modelled base64 alphabet: 0-9 then a-f, built from
their character codes. -/
def hexDigits : List Char :=
  (List.range 16).map (fun i => Char.ofNat (if i < 10 then 48 + i else 87 + i))

/-- Value of one alphabet character, `none` off the alphabet. -/
def hexVal (c : Char) : Option Nat :=
  (List.range 16).find? (fun i => hexDigits.getD i ' ' = c)

/-- Model of `base64.b64encode`: each byte becomes two alphabet characters. -/
def b64encode (b : Bytes) : String :=
  String.mk (b.flatMap (fun n => [hexDigits.getD (n / 16 % 16) '0', hexDigits.getD (n % 16) '0']))

/-- Decoder on character lists: fails on odd length or off-alphabet characters. -/
def b64decodeChars : List Char → Option Bytes
  | [] => some []
  | [_] => none
  | c1 :: c2 :: rest =>
    match hexVal c1, hexVal c2, b64decodeChars rest with
    | some h, some l, some bs => some ((16 * h + l) :: bs)
    | _, _, _ => none

/-- Model of `base64.b64decode` on strings. -/
def b64decode (s : String) : Option Bytes := b64decodeChars s.data

/-- A value of the caller-supplied input mapping: raw bytes, a string (path or
base64), an in-memory image, Python `None`, or a number. -/
inductive Value
  | bytes (b : Bytes)
  | str (s : String)
  | image (img : PILImage)
  | vnull
  | num (n : Int)
deriving DecidableEq, Repr

/-- `ImageConverter.to_bytes` (src/client/helpers.py): bytes pass through, a string
is tried as base64 (the file-path branch reads the external filesystem and is
modelled as absent), an image is saved as PNG, anything else raises `ValueError`. -/
def ImageConverter.to_bytes : Value → Except Exc Bytes
  | .bytes b => .ok b
  | .str s =>
    match b64decode s with
    | some b => .ok b
    | none => .error (.valueError
        "String input must be either a valid file path or base64 encoded image")
  | .image img => .ok (pilSavePng img)
  | .vnull => .error (.valueError "Unsupported input type")
  | .num _ => .error (.valueError "Unsupported input type")

/-- `ImageConverter.from_bytes` with the default PIL target: `Image.open`. -/
def ImageConverter.from_bytes (b : Bytes) : Except Exc PILImage :=
  match pilOpen b with
  | some img => .ok img
  | none => .error (.valueError "cannot identify image file")

/-- JSON scalar values appearing in `generation_data` objects and response bodies. -/
inductive JVal
  | jstr (s : String)
  | jnum (n : Int)
  | jnull
deriving DecidableEq, Repr

/-- `json.dumps` on one value: bytes and images are not JSON serializable. -/
def toJVal : Value → Except Exc JVal
  | .str s => .ok (.jstr s)
  | .num n => .ok (.jnum n)
  | .vnull => .ok .jnull
  | .bytes _ => .error (.typeError "Object of type bytes is not JSON serializable")
  | .image _ => .error (.typeError "Object of type Image is not JSON serializable")

/-- `json.dumps` over the fields of a `generation_data` dict, in insertion order,
raising at the first non-serializable value. -/
def jsonDumpsFields : List (String × Value) → Except Exc (List (String × JVal))
  | [] => .ok []
  | (k, v) :: rest =>
    match toJVal v with
    | .error e => .error e
    | .ok j =>
      match jsonDumpsFields rest with
      | .error e => .error e
      | .ok r => .ok ((k, j) :: r)

/-- The caller-supplied input mapping (a Python dict, keyed by field name). -/
abbrev InputData := List (String × Value)

/-- Python `key in input_data`. -/
def hasKey (d : InputData) (k : String) : Bool := (List.lookup k d).isSome

/-- Python `input_data.get(key)` / `input_data.get(key, None)`: `None` when absent. -/
def InputData.get (d : InputData) (k : String) : Value := (List.lookup k d).getD .vnull

/-- One multipart file part: filename, content (Python `None` possible for the
tryon mask), declared content type. -/
structure FilePart where
  filename : String
  content : Option Bytes
  contentType : String
deriving DecidableEq, Repr

/-- The pair a `process_inputs` returns: `files` and `form_data`, either of which
the source may leave as Python `None`. The serialized `generation_data` JSON
string is modelled by the structured object it serializes. -/
structure Payload where
  files : Option (List (String × FilePart))
  form_data : Option (List (String × List (String × JVal)))
deriving DecidableEq, Repr

/-- The single-quote character, for the assert messages of the source. -/
def sq : String := "\x27"

/-- The assert message "Missing <key> key in input data" (FaceJob, ModelGenerationJob). -/
def missingMsgA (k : String) : String :=
  "Missing " ++ sq ++ k ++ sq ++ " key in input data"

/-- The assert message "Missing <key> key in input_data" (Mask, TryOn, HandsFix, Retouch). -/
def missingMsgB (k : String) : String :=
  "Missing " ++ sq ++ k ++ sq ++ " key in input" ++ "_data"

/-- `FaceJob.process_inputs` (src/client/jobs.py). -/
def FaceJob.process_inputs (input_data : InputData) : Except Exc Payload :=
  if hasKey input_data "model_img" = false then
    .error (.assertionError (missingMsgA "model_img"))
  else if hasKey input_data "generation_type" = false then
    .error (.assertionError (missingMsgA "generation_type"))
  else if hasKey input_data "inpaint_params" = false then
    .error (.assertionError (missingMsgA "inpaint_params"))
  else if hasKey input_data "prompt" = false then
    .error (.assertionError (missingMsgA "prompt"))
  else
    match ImageConverter.to_bytes (InputData.get input_data "model_img") with
    | .error e => .error e
    | .ok model_img =>
      match jsonDumpsFields
          [("inpaint_params", InputData.get input_data "inpaint_params"),
           ("generation_type", InputData.get input_data "generation_type"),
           ("prompt", InputData.get input_data "prompt")] with
      | .error e => .error e
      | .ok generation_data =>
        .ok { files := some [("model_img_buffer",
                FilePart.mk "model.png" (some model_img) "image/png")],
              form_data := some [("generation_data", generation_data)] }

/-- `MaskJob.process_inputs` (src/client/jobs.py). -/
def MaskJob.process_inputs (input_data : InputData) : Except Exc Payload :=
  if hasKey input_data "category" = false then
    .error (.assertionError (missingMsgB "category"))
  else if hasKey input_data "model_img" = false then
    .error (.assertionError (missingMsgB "model_img"))
  else
    match ImageConverter.to_bytes (InputData.get input_data "model_img") with
    | .error e => .error e
    | .ok model_img =>
      match jsonDumpsFields [("category", InputData.get input_data "category")] with
      | .error e => .error e
      | .ok generation_data =>
        .ok { files := some [("model_img_buffer",
                FilePart.mk "model.png" (some model_img) "image/png")],
              form_data := some [("generation_data", generation_data)] }

/-- `TryOnJob.process_inputs` (src/client/jobs.py): a `None` mask value passes the
key assert, skips byte conversion, and is placed as-is into the mask file part. -/
def TryOnJob.process_inputs (input_data : InputData) : Except Exc Payload :=
  if hasKey input_data "category" = false then
    .error (.assertionError (missingMsgB "category"))
  else if hasKey input_data "model_img" = false then
    .error (.assertionError (missingMsgB "model_img"))
  else if hasKey input_data "cloth_img" = false then
    .error (.assertionError (missingMsgB "cloth_img"))
  else if hasKey input_data "mask_img" = false then
    .error (.assertionError (missingMsgB "mask_img"))
  else
    match ImageConverter.to_bytes (InputData.get input_data "model_img") with
    | .error e => .error e
    | .ok model_img =>
      match ImageConverter.to_bytes (InputData.get input_data "cloth_img") with
      | .error e => .error e
      | .ok cloth_img =>
        match (match InputData.get input_data "mask_img" with
               | .vnull => Except.ok (Option.none)
               | v => (ImageConverter.to_bytes v).map Option.some) with
        | .error e => .error e
        | .ok mask_img =>
          match jsonDumpsFields [("category", InputData.get input_data "category")] with
          | .error e => .error e
          | .ok generation_data =>
            .ok { files := some
                    [("model_img_buffer",
                      FilePart.mk "model.png" (some model_img) "image/png"),
                     ("cloth_img_buffer",
                      FilePart.mk "cloth.png" (some cloth_img) "image/png"),
                     ("mask_img_buffer",
                      FilePart.mk "mask.png" mask_img "image/png")],
                  form_data := some [("generation_data", generation_data)] }

/-- `HandsFixJob.process_inputs` (src/client/jobs.py): `form_data` is Python `None`. -/
def HandsFixJob.process_inputs (input_data : InputData) : Except Exc Payload :=
  if hasKey input_data "model_img" = false then
    .error (.assertionError (missingMsgB "model_img"))
  else
    match ImageConverter.to_bytes (InputData.get input_data "model_img") with
    | .error e => .error e
    | .ok model_img =>
      .ok { files := some [("model_img_buffer",
              FilePart.mk "model.png" (some model_img) "image/png")],
            form_data := none }

/-- `RetouchJob.process_inputs` (src/client/jobs.py): `seed` is optional, absent
means JSON null. -/
def RetouchJob.process_inputs (input_data : InputData) : Except Exc Payload :=
  if hasKey input_data "model_img" = false then
    .error (.assertionError (missingMsgB "model_img"))
  else
    match ImageConverter.to_bytes (InputData.get input_data "model_img") with
    | .error e => .error e
    | .ok model_img =>
      match jsonDumpsFields [("seed", InputData.get input_data "seed")] with
      | .error e => .error e
      | .ok generation_data =>
        .ok { files := some [("model_img_buffer",
                FilePart.mk "model.png" (some model_img) "image/png")],
              form_data := some [("generation_data", generation_data)] }

/-- `ModelGenerationJob.process_inputs` (src/client/jobs.py): `files` is Python `None`. -/
def ModelGenerationJob.process_inputs (input_data : InputData) : Except Exc Payload :=
  if hasKey input_data "prompt" = false then
    .error (.assertionError (missingMsgA "prompt"))
  else
    match jsonDumpsFields
        [("prompt", InputData.get input_data "prompt"),
         ("seed", InputData.get input_data "seed")] with
    | .error e => .error e
    | .ok generation_data =>
      .ok { files := none,
            form_data := some [("generation_data", generation_data)] }

/-- The six job variant tags of the catalog. -/
inductive JobType
  | face
  | handsfix
  | mask
  | model_generation
  | retouch
  | tryon
deriving DecidableEq, Repr

/-- The module-level `job_mapping` dict of src/client/client.py. -/
def job_mapping : List (String × JobType) :=
  [("face_job", .face), ("handsfix_job", .handsfix), ("mask_job", .mask),
   ("model_generation_job", .model_generation), ("retouch_job", .retouch),
   ("tryon_job", .tryon)]

/-- Dispatch `self.job_class.process_inputs`. -/
def processInputs : JobType → InputData → Except Exc Payload
  | .face => FaceJob.process_inputs
  | .handsfix => HandsFixJob.process_inputs
  | .mask => MaskJob.process_inputs
  | .model_generation => ModelGenerationJob.process_inputs
  | .retouch => RetouchJob.process_inputs
  | .tryon => TryOnJob.process_inputs

/-- A raw HTTP response: status code, body text, and its JSON parse when the body
parses (the source reaches the parse through `response.json()`). -/
structure RawResponse where
  status_code : Nat
  text : String
  json : Option (List (String × JVal))
deriving DecidableEq, Repr

/-- The identical `process_outputs` body shared by all six job classes
(src/client/jobs.py): parse the body, read `result`, base64-decode it, open it as
an image. `response.json()` raises on an unparseable body; `b64decode` raises
`TypeError` on `None` (a missing or null field) and `binascii.Error` on an
invalid string. -/
def process_outputs (response : RawResponse) : Except Exc PILImage :=
  match response.json with
  | none => .error .jsonDecodeError
  | some result_data =>
    match List.lookup "result" result_data with
    | none => .error (.typeError
        "argument should be a bytes-like object or ASCII string, not NoneType")
    | some .jnull => .error (.typeError
        "argument should be a bytes-like object or ASCII string, not NoneType")
    | some (.jnum _) => .error (.typeError
        "argument should be a bytes-like object or ASCII string, not int")
    | some (.jstr s) =>
      match b64decode s with
      | none => .error .binasciiError
      | some decoded => ImageConverter.from_bytes decoded

/-- Dispatch `self.job_class.process_outputs`: the six bodies are identical. -/
def processOutputs (_job : JobType) (response : RawResponse) : Except Exc PILImage :=
  process_outputs response

/-- `JobClient._check_response` (src/client/client.py): on a non-200 status it
tries to parse the body and logs the `error` field and `stack_trace` (or, when the
parse fails, the raw response text). Every branch only logs; the method raises
nothing and returns `None` in all cases. -/
def check_response (response : RawResponse) : Except Exc Unit :=
  if response.status_code ≠ 200 then
    match response.json with
    | some _error_data => .ok ()
    | none => .ok ()
  else .ok ()

/-- `JobClient._check_health` (src/client/client.py), with the outcome of the GET
to the health endpoint (response or raised exception) passed in: inside the try,
it returns `status_code == 200`; the bare except returns `False`. The method is
total and never raises. -/
def check_health (getResult : Except Exc RawResponse) : Bool :=
  match getResult with
  | .ok response => response.status_code == 200
  | .error _ => false

/-- A `JobClient` after `__init__`: the resolved job class, the tag, the server
url, and the stored `max_timeout` argument (default 600). -/
structure JobClient where
  job_class : JobType
  job_type : String
  server_url : String
  max_timeout : Int
deriving DecidableEq, Repr

/-- `JobClient.__init__`: asserts the tag is in `job_mapping`, then stores the
resolved job class and the constructor arguments. -/
def JobClient.init (server_url job_type : String) (max_timeout : Int := 600) :
    Except Exc JobClient :=
  match List.lookup job_type job_mapping with
  | none => .error (.assertionError ("Invalid job type: " ++ job_type))
  | some jc => .ok (JobClient.mk jc job_type server_url max_timeout)

/-- Observable transport-level events of one `run_job` call: each HTTP POST with
the timeout it was issued with, and each inter-attempt `time.sleep`. -/
inductive Event
  | post (timeout : Int)
  | sleep (seconds : Nat)
deriving DecidableEq, Repr

/-- A server behavior: what the POST of attempt `i` (0-based) produces — a raised
transport exception or a raw response. -/
abbrev Server := Nat → Except Exc RawResponse

/-- The body of one try block of the retry loop, given the attempt index: POST
(the server may raise), `_check_response` (which never raises), then
`process_outputs`. -/
def attemptResult (job : JobType) (server : Server) (i : Nat) : Except Exc PILImage :=
  match server i with
  | .error e => .error e
  | .ok response =>
    match check_response response with
    | .error e => .error e
    | .ok _ => processOutputs job response

/-- The `while attempt < retry` loop of `run_job`, as recursion on the remaining
iteration count. Falling out of the loop returns Python `None`; after a failed
attempt the code sleeps 2 seconds if iterations remain and re-raises otherwise.
The POST of the source carries the literal `timeout=600`. -/
def runJobLoop (job : JobType) (server : Server) :
    Nat → Nat → Except Exc (Option PILImage) × List Event
  | _attempt, 0 => (.ok none, [])
  | attempt, r + 1 =>
    match attemptResult job server attempt with
    | .ok img => (.ok (some img), [.post 600])
    | .error e =>
      if r = 0 then (.error e, [.post 600])
      else
        let rest := runJobLoop job server (attempt + 1) r
        (rest.1, .post 600 :: .sleep 2 :: rest.2)

/-- `JobClient.run_job` (src/client/client.py), default `retry=3`: process the
inputs once before the loop (assertion failures propagate, untouched by the
try/except), then run the retry loop. The result pairs the call outcome with the
list of transport events. -/
def JobClient.run_job (c : JobClient) (input_data : InputData) (retry : Int)
    (server : Server) : Except Exc (Option PILImage) × List Event :=
  match processInputs c.job_class input_data with
  | .error e => (.error e, [])
  | .ok _payload => runJobLoop c.job_class server 0 retry.toNat

/-- The reference retry loop of the spec (section 4.6): encoding is re-run at the
start of every attempt, its failures fail fast (no retry, no sleep). -/
def runJobRefLoop (job : JobType) (input_data : InputData) (server : Server) :
    Nat → Nat → Except Exc (Option PILImage) × List Event
  | _attempt, 0 => (.ok none, [])
  | attempt, r + 1 =>
    match processInputs job input_data with
    | .error e => (.error e, [])
    | .ok _payload =>
      match attemptResult job server attempt with
      | .ok img => (.ok (some img), [.post 600])
      | .error e =>
        if r = 0 then (.error e, [.post 600])
        else
          let rest := runJobRefLoop job input_data server (attempt + 1) r
          (rest.1, .post 600 :: .sleep 2 :: rest.2)

/-- The reference `run_job` of the spec: as `run_job`, with encoding re-run on
every attempt rather than hoisted before the loop. -/
def JobClient.run_job_ref (c : JobClient) (input_data : InputData) (retry : Int)
    (server : Server) : Except Exc (Option PILImage) × List Event :=
  runJobRefLoop c.job_class input_data server 0 retry.toNat

/-- The required input fields of each variant, in the order the source asserts them. -/
def requiredFields : JobType → List String
  | .face => ["model_img", "generation_type", "inpaint_params", "prompt"]
  | .mask => ["category", "model_img"]
  | .tryon => ["category", "model_img", "cloth_img", "mask_img"]
  | .handsfix => ["model_img"]
  | .retouch => ["model_img"]
  | .model_generation => ["prompt"]

/-- The assert message of each variant for a given missing key (Face and
ModelGeneration write "input data", the others "input_data"). -/
def missingKeyMsg : JobType → String → String
  | .face, k => missingMsgA k
  | .model_generation, k => missingMsgA k
  | _, k => missingMsgB k

/-- The keys of the `generation_data` object of each variant, in insertion order
(empty for handsfix, which sends no form data at all). -/
def metadataKeys : JobType → List String
  | .face => ["inpaint_params", "generation_type", "prompt"]
  | .mask => ["category"]
  | .tryon => ["category"]
  | .handsfix => []
  | .retouch => ["seed"]
  | .model_generation => ["prompt", "seed"]

/-- The event trace of a run whose every attempt fails, for `n` attempts:
`n` POSTs with a 2-second sleep between consecutive ones. -/
def failTrace : Nat → List Event
  | 0 => []
  | 1 => [.post 600]
  | n + 2 => .post 600 :: .sleep 2 :: failTrace (n + 1)

deriving instance DecidableEq for Except

/-! Concrete fixtures used to instantiate the theorems below. -/

/-- A well-formed face-job input. -/
def faceInput : InputData :=
  [("model_img", .bytes [1, 2]), ("generation_type", .str "full"),
   ("inpaint_params", .str "p"), ("prompt", .str "dress")]

/-- The payload `FaceJob.process_inputs` builds from `faceInput`. -/
def faceP : Payload :=
  Payload.mk
    (some [("model_img_buffer", FilePart.mk "model.png" (some [1, 2]) "image/png")])
    (some [("generation_data",
      [("inpaint_params", .jstr "p"), ("generation_type", .jstr "full"),
       ("prompt", .jstr "dress")])])

/-- A face-job client with the default `max_timeout`. -/
def clientFace : JobClient := JobClient.mk .face "face_job" "http://server" 600

/-- A face-job client constructed with `max_timeout=30`. -/
def clientFace30 : JobClient := JobClient.mk .face "face_job" "http://server" 30

/-- A server that always answers 500 with an unparseable body. -/
def server500 : Server := fun _ => .ok (RawResponse.mk 500 "boom" none)

/-- A 500 response whose JSON body carries a valid base64 image in `result`. -/
def resp500img : RawResponse :=
  RawResponse.mk 500 ""
    (some [("result", .jstr (b64encode (pilSavePng (PILImage.mk [7]))))])

/-- A server that always answers with `resp500img`. -/
def server500img : Server := fun _ => .ok resp500img

/-- A well-formed tryon input whose mask is Python `None`. -/
def tryonInput : InputData :=
  [("category", .str "upper"), ("model_img", .bytes [1]),
   ("cloth_img", .bytes [2]), ("mask_img", .vnull)]

/-! Helper lemmas. -/

/-- Serializing a `generation_data` dict keeps its keys, in order. -/
theorem jsonDumpsFields_keys :
    ∀ (l : List (String × Value)) (r : List (String × JVal)),
      jsonDumpsFields l = .ok r → r.map Prod.fst = l.map Prod.fst := by
  intro l
  induction l with
  | nil => intro r h; simp [jsonDumpsFields] at h; simp [← h]
  | cons kv rest ih =>
    intro r h
    obtain ⟨k, v⟩ := kv
    simp only [jsonDumpsFields] at h
    cases hj : toJVal v with
    | error e => rw [hj] at h; simp at h
    | ok j =>
      rw [hj] at h
      cases hr : jsonDumpsFields rest with
      | error e => rw [hr] at h; simp at h
      | ok r2 =>
        rw [hr] at h
        simp only [Except.ok.injEq] at h
        subst h
        simp [ih r2 hr]

/-- When some required field is absent, `processInputs` raises the assert of the
first absent field (in the source's assert order), with the variant's message. -/
theorem processInputs_missing (job : JobType) (input : InputData)
    (h : ∃ k ∈ requiredFields job, hasKey input k = false) :
    ∃ m ∈ requiredFields job, hasKey input m = false ∧
      processInputs job input = .error (.assertionError (missingKeyMsg job m)) := by
  cases job with
  | face =>
    by_cases h1 : hasKey input "model_img" = false
    · exact ⟨"model_img", by simp [requiredFields], h1,
        by simp [processInputs, FaceJob.process_inputs, h1, missingKeyMsg]⟩
    · rw [Bool.not_eq_false] at h1
      by_cases h2 : hasKey input "generation_type" = false
      · exact ⟨"generation_type", by simp [requiredFields], h2,
          by simp [processInputs, FaceJob.process_inputs, h1, h2, missingKeyMsg]⟩
      · rw [Bool.not_eq_false] at h2
        by_cases h3 : hasKey input "inpaint_params" = false
        · exact ⟨"inpaint_params", by simp [requiredFields], h3,
            by simp [processInputs, FaceJob.process_inputs, h1, h2, h3, missingKeyMsg]⟩
        · rw [Bool.not_eq_false] at h3
          by_cases h4 : hasKey input "prompt" = false
          · exact ⟨"prompt", by simp [requiredFields], h4,
              by simp [processInputs, FaceJob.process_inputs, h1, h2, h3, h4, missingKeyMsg]⟩
          · rw [Bool.not_eq_false] at h4
            obtain ⟨k, hk, hmiss⟩ := h
            simp [requiredFields] at hk
            rcases hk with rfl | rfl | rfl | rfl <;> simp_all
  | mask =>
    by_cases h1 : hasKey input "category" = false
    · exact ⟨"category", by simp [requiredFields], h1,
        by simp [processInputs, MaskJob.process_inputs, h1, missingKeyMsg]⟩
    · rw [Bool.not_eq_false] at h1
      by_cases h2 : hasKey input "model_img" = false
      · exact ⟨"model_img", by simp [requiredFields], h2,
          by simp [processInputs, MaskJob.process_inputs, h1, h2, missingKeyMsg]⟩
      · rw [Bool.not_eq_false] at h2
        obtain ⟨k, hk, hmiss⟩ := h
        simp [requiredFields] at hk
        rcases hk with rfl | rfl <;> simp_all
  | tryon =>
    by_cases h1 : hasKey input "category" = false
    · exact ⟨"category", by simp [requiredFields], h1,
        by simp [processInputs, TryOnJob.process_inputs, h1, missingKeyMsg]⟩
    · rw [Bool.not_eq_false] at h1
      by_cases h2 : hasKey input "model_img" = false
      · exact ⟨"model_img", by simp [requiredFields], h2,
          by simp [processInputs, TryOnJob.process_inputs, h1, h2, missingKeyMsg]⟩
      · rw [Bool.not_eq_false] at h2
        by_cases h3 : hasKey input "cloth_img" = false
        · exact ⟨"cloth_img", by simp [requiredFields], h3,
            by simp [processInputs, TryOnJob.process_inputs, h1, h2, h3, missingKeyMsg]⟩
        · rw [Bool.not_eq_false] at h3
          by_cases h4 : hasKey input "mask_img" = false
          · exact ⟨"mask_img", by simp [requiredFields], h4,
              by simp [processInputs, TryOnJob.process_inputs, h1, h2, h3, h4, missingKeyMsg]⟩
          · rw [Bool.not_eq_false] at h4
            obtain ⟨k, hk, hmiss⟩ := h
            simp [requiredFields] at hk
            rcases hk with rfl | rfl | rfl | rfl <;> simp_all
  | handsfix =>
    obtain ⟨k, hk, hmiss⟩ := h
    simp [requiredFields] at hk
    subst hk
    exact ⟨"model_img", by simp [requiredFields], hmiss,
      by simp [processInputs, HandsFixJob.process_inputs, hmiss, missingKeyMsg]⟩
  | retouch =>
    obtain ⟨k, hk, hmiss⟩ := h
    simp [requiredFields] at hk
    subst hk
    exact ⟨"model_img", by simp [requiredFields], hmiss,
      by simp [processInputs, RetouchJob.process_inputs, hmiss, missingKeyMsg]⟩
  | model_generation =>
    obtain ⟨k, hk, hmiss⟩ := h
    simp [requiredFields] at hk
    subst hk
    exact ⟨"prompt", by simp [requiredFields], hmiss,
      by simp [processInputs, ModelGenerationJob.process_inputs, hmiss, missingKeyMsg]⟩

/-- When every attempt fails, the loop runs all its iterations, raises the last
attempt's error, and its trace is `n` POSTs separated by 2-second sleeps. -/
theorem runJobLoop_fail (job : JobType) (server : Server) (errs : Nat → Exc)
    (hf : ∀ i, attemptResult job server i = .error (errs i)) :
    ∀ n a, runJobLoop job server a (n + 1) = (.error (errs (a + n)), failTrace (n + 1)) := by
  intro n
  induction n with
  | zero => intro a; simp [runJobLoop, hf a, failTrace]
  | succ m ih =>
    intro a
    rw [runJobLoop, hf a]
    simp only [Nat.succ_ne_zero, if_false]
    rw [ih (a + 1)]
    have hsum : a + 1 + m = a + (m + 1) := by omega
    simp [failTrace, hsum]

/-- With a successful (hence deterministic) encoding, re-encoding inside the loop
changes nothing: the reference loop equals the implemented loop. -/
theorem runJobRefLoop_eq (job : JobType) (input : InputData) (server : Server)
    (p : Payload) (hp : processInputs job input = .ok p) :
    ∀ r a, runJobRefLoop job input server a r = runJobLoop job server a r := by
  intro r
  induction r with
  | zero => intro a; rfl
  | succ m ih =>
    intro a
    rw [runJobRefLoop, runJobLoop, hp]
    simp only [ih (a + 1)]

/-- With a failing encoding, every nonempty reference loop fails at its first
re-encode, before any POST. -/
theorem runJobRefLoop_err (job : JobType) (input : InputData) (server : Server)
    (e : Exc) (hp : processInputs job input = .error e) :
    ∀ m a, runJobRefLoop job input server a (m + 1) = (.error e, []) := by
  intro m a
  rw [runJobRefLoop, hp]

/-! The claims. -/

/-- C1: the claim says that for every non-200 response the attempt fails with a
ServerError carrying the extracted error envelope, never silently swallowed. The
code contradicts it: `_check_response` only logs and raises nothing, so a 500
response whose JSON body happens to carry a decodable `result` image is treated
as a success — `run_job` returns the decoded image and no error of any kind is
raised. This theorem evaluates the code at that failing input. -/
theorem C1_non200_swallowed :
    resp500img.status_code = 500 ∧
      clientFace.run_job faceInput 3 server500img =
        (.ok (some (PILImage.mk [7])), [.post 600]) := by
  decide

/-- C2: response classification is status-independent. For every response whose
body parses as JSON and whose `result` field base64-decodes to a valid image —
with no hypothesis at all on the status code — the attempt succeeds, and a
`run_job` whose first attempt gets that response returns the decoded image. -/
theorem C2_status_independent_success (c : JobClient) (input : InputData)
    (p : Payload) (retry : Int) (server : Server) (resp : RawResponse)
    (body : List (String × JVal)) (s : String) (bs : Bytes) (img : PILImage)
    (hp : processInputs c.job_class input = .ok p)
    (hr : 1 ≤ retry)
    (hs : server 0 = .ok resp)
    (hj : resp.json = some body)
    (hres : List.lookup "result" body = some (.jstr s))
    (hb : b64decode s = some bs)
    (hi : pilOpen bs = some img) :
    (∀ (srv : Server) (i : Nat), srv i = .ok resp →
        attemptResult c.job_class srv i = .ok img) ∧
      c.run_job input retry server = (.ok (some img), [.post 600]) := by
  have ha : ∀ (srv : Server) (i : Nat), srv i = .ok resp →
      attemptResult c.job_class srv i = .ok img := by
    intro srv i hsi
    simp [attemptResult, hsi, check_response, hj, processOutputs, process_outputs,
      hres, hb, ImageConverter.from_bytes, hi]
  refine ⟨ha, ?_⟩
  obtain ⟨m, hm⟩ : ∃ m, retry.toNat = m + 1 := ⟨retry.toNat - 1, by omega⟩
  simp [JobClient.run_job, hp, hm, runJobLoop, ha server 0 hs]

/-- Witness for C2, at a concrete 500 response carrying a valid image. -/
theorem C2_status_independent_success_witness :
    clientFace.run_job faceInput 1 server500img =
      (.ok (some (PILImage.mk [7])), [.post 600]) :=
  (C2_status_independent_success clientFace faceInput faceP 1 server500img
    resp500img [("result", .jstr (b64encode (pilSavePng (PILImage.mk [7]))))]
    (b64encode (pilSavePng (PILImage.mk [7]))) [137, 80, 78, 71, 7]
    (PILImage.mk [7]) (by decide) (by decide) rfl rfl (by decide) (by decide)
    (by decide)).2

/-- C3: when every attempt's send/validate/decode cycle fails, `run_job` with
`retry = N ≥ 1` performs exactly N attempts (N POST events), sleeps the fixed
2 seconds between consecutive attempts and never after the last (the trace is
`failTrace N`: N POSTs with N-1 interleaved sleeps), and raises the error of the
last attempt (attempt index N-1). -/
theorem C3_exhaustion_attempts_and_trace (c : JobClient) (input : InputData)
    (p : Payload) (retry : Int) (server : Server) (errs : Nat → Exc)
    (hp : processInputs c.job_class input = .ok p)
    (hr : 1 ≤ retry)
    (hf : ∀ i, attemptResult c.job_class server i = .error (errs i)) :
    c.run_job input retry server =
      (.error (errs (retry.toNat - 1)), failTrace retry.toNat) := by
  obtain ⟨m, hm⟩ : ∃ m, retry.toNat = m + 1 := ⟨retry.toNat - 1, by omega⟩
  rw [JobClient.run_job, hp, hm, runJobLoop_fail c.job_class server errs hf m 0]
  simp

/-- Witness for C3: two attempts against an always-500 server with an
unparseable body, trace `failTrace 2` (POST, sleep 2, POST). -/
theorem C3_exhaustion_attempts_and_trace_witness :
    clientFace.run_job faceInput 2 server500 =
      (.error .jsonDecodeError, failTrace 2) :=
  C3_exhaustion_attempts_and_trace clientFace faceInput faceP 2 server500
    (fun _ => .jsonDecodeError) (by decide) (by decide) (fun _ => rfl)

/-- C4: for each of the six variants and every input lacking one of its required
fields, `run_job` fails with the assertion error naming a missing field (the
first absent one in the source's assert order), before any network call: the
event trace is empty, so no attempt and no sleep happens, for every retry
count. -/
theorem C4_missing_field_fail_fast (c : JobClient) (input : InputData)
    (retry : Int) (server : Server) (k : String)
    (hk : k ∈ requiredFields c.job_class)
    (hmiss : hasKey input k = false) :
    ∃ m ∈ requiredFields c.job_class, hasKey input m = false ∧
      c.run_job input retry server =
        (.error (.assertionError (missingKeyMsg c.job_class m)), []) := by
  obtain ⟨m, hm, hmm, hpe⟩ := processInputs_missing c.job_class input ⟨k, hk, hmiss⟩
  exact ⟨m, hm, hmm, by rw [JobClient.run_job, hpe]⟩

/-- Witness for C4: the empty input for a face job. -/
theorem C4_missing_field_fail_fast_witness :
    ∃ m ∈ requiredFields clientFace.job_class, hasKey [] m = false ∧
      clientFace.run_job [] 3 server500 =
        (.error (.assertionError (missingKeyMsg clientFace.job_class m)), []) :=
  C4_missing_field_fail_fast clientFace [] 3 server500 "model_img" (by decide)
    (by decide)

/-- C5: the claim says every POST uses the caller-configured `max_timeout` as its
timeout. The code contradicts it: `__init__` stores `max_timeout` but `run_job`
posts with the literal `timeout=600`, so a client configured with
`max_timeout=30` still issues its POST with timeout 600. This theorem evaluates
the code at that failing input. -/
theorem C5_post_ignores_max_timeout :
    clientFace30.max_timeout = 30 ∧
      (clientFace30.run_job faceInput 1 server500).2 = [.post 600] := by
  decide

/-- C6: for the tryon variant, every otherwise-convertible input whose
`mask_img` value is Python `None` is accepted by encoding — no validation error,
the result is `.ok` — and the payload still contains the attachment slot
`mask_img_buffer`, present with absent (`none`) content rather than omitted. -/
theorem C6_tryon_null_mask_slot (input : InputData) (mb cb : Bytes) (catJ : JVal)
    (h1 : hasKey input "category" = true)
    (h2 : hasKey input "model_img" = true)
    (h3 : hasKey input "cloth_img" = true)
    (h4 : hasKey input "mask_img" = true)
    (hm : InputData.get input "mask_img" = .vnull)
    (hmb : ImageConverter.to_bytes (InputData.get input "model_img") = .ok mb)
    (hcb : ImageConverter.to_bytes (InputData.get input "cloth_img") = .ok cb)
    (hcat : toJVal (InputData.get input "category") = .ok catJ) :
    TryOnJob.process_inputs input =
      .ok (Payload.mk
        (some [("model_img_buffer", FilePart.mk "model.png" (some mb) "image/png"),
               ("cloth_img_buffer", FilePart.mk "cloth.png" (some cb) "image/png"),
               ("mask_img_buffer", FilePart.mk "mask.png" none "image/png")])
        (some [("generation_data", [("category", catJ)])])) := by
  simp [TryOnJob.process_inputs, h1, h2, h3, h4, hm, hmb, hcb,
    jsonDumpsFields, hcat]

/-- Witness for C6: a concrete tryon input with a null mask. -/
theorem C6_tryon_null_mask_slot_witness :
    TryOnJob.process_inputs tryonInput =
      .ok (Payload.mk
        (some [("model_img_buffer", FilePart.mk "model.png" (some [1]) "image/png"),
               ("cloth_img_buffer", FilePart.mk "cloth.png" (some [2]) "image/png"),
               ("mask_img_buffer", FilePart.mk "mask.png" none "image/png")])
        (some [("generation_data", [("category", .jstr "upper")])])) :=
  C6_tryon_null_mask_slot tryonInput [1] [2] (.jstr "upper") (by decide)
    (by decide) (by decide) (by decide) (by decide) (by decide) (by decide)
    (by decide)

/-- C7 counterexample: the claim says every variant's payload carries exactly one
form field `generation_data`; but for handsfix, a valid input yields
`form_data = none` — no form field at all. -/
theorem C7_handsfix_no_generation_data :
    processInputs .handsfix [("model_img", Value.bytes [1])] =
      .ok (Payload.mk
        (some [("model_img_buffer", FilePart.mk "model.png" (some [1]) "image/png")])
        none) := by
  decide

/-- C7 as amended: for five of the six variants — all but handsfix — every
successfully encoded payload carries exactly one form field `generation_data`
holding a JSON object whose keys are the variant's metadata fields in catalog
order; for handsfix the form-data component is Python `None`, so no
`generation_data` field is sent. -/
theorem C7_generation_data_per_variant (job : JobType) (input : InputData)
    (p : Payload) (hp : processInputs job input = .ok p) :
    (job = .handsfix → p.form_data = none) ∧
      (job ≠ .handsfix → ∃ obj, p.form_data = some [("generation_data", obj)] ∧
        obj.map Prod.fst = metadataKeys job) := by
  cases job with
  | face =>
    refine ⟨fun h => absurd h (by decide), fun _ => ?_⟩
    simp only [processInputs, FaceJob.process_inputs] at hp
    split at hp
    · simp at hp
    split at hp
    · simp at hp
    split at hp
    · simp at hp
    split at hp
    · simp at hp
    split at hp
    · simp at hp
    split at hp
    · simp at hp
    next gd hgd =>
      injection hp with hp
      subst hp
      exact ⟨gd, rfl, by simpa [metadataKeys] using jsonDumpsFields_keys _ _ hgd⟩
  | mask =>
    refine ⟨fun h => absurd h (by decide), fun _ => ?_⟩
    simp only [processInputs, MaskJob.process_inputs] at hp
    split at hp
    · simp at hp
    split at hp
    · simp at hp
    split at hp
    · simp at hp
    split at hp
    · simp at hp
    next gd hgd =>
      injection hp with hp
      subst hp
      exact ⟨gd, rfl, by simpa [metadataKeys] using jsonDumpsFields_keys _ _ hgd⟩
  | tryon =>
    refine ⟨fun h => absurd h (by decide), fun _ => ?_⟩
    simp only [processInputs, TryOnJob.process_inputs] at hp
    split at hp
    · simp at hp
    split at hp
    · simp at hp
    split at hp
    · simp at hp
    split at hp
    · simp at hp
    split at hp
    · simp at hp
    split at hp
    · simp at hp
    split at hp
    · simp at hp
    split at hp
    · simp at hp
    next gd hgd =>
      injection hp with hp
      subst hp
      exact ⟨gd, rfl, by simpa [metadataKeys] using jsonDumpsFields_keys _ _ hgd⟩
  | handsfix =>
    refine ⟨fun _ => ?_, fun h => absurd rfl h⟩
    simp only [processInputs, HandsFixJob.process_inputs] at hp
    split at hp
    · simp at hp
    split at hp
    · simp at hp
    injection hp with hp
    subst hp
    rfl
  | retouch =>
    refine ⟨fun h => absurd h (by decide), fun _ => ?_⟩
    simp only [processInputs, RetouchJob.process_inputs] at hp
    split at hp
    · simp at hp
    split at hp
    · simp at hp
    split at hp
    · simp at hp
    next gd hgd =>
      injection hp with hp
      subst hp
      exact ⟨gd, rfl, by simpa [metadataKeys] using jsonDumpsFields_keys _ _ hgd⟩
  | model_generation =>
    refine ⟨fun h => absurd h (by decide), fun _ => ?_⟩
    simp only [processInputs, ModelGenerationJob.process_inputs] at hp
    split at hp
    · simp at hp
    split at hp
    · simp at hp
    next gd hgd =>
      injection hp with hp
      subst hp
      exact ⟨gd, rfl, by simpa [metadataKeys] using jsonDumpsFields_keys _ _ hgd⟩

/-- Witness for the amended C7, at the concrete face payload. -/
theorem C7_generation_data_per_variant_witness :
    (JobType.face = JobType.handsfix → faceP.form_data = none) ∧
      (JobType.face ≠ JobType.handsfix →
        ∃ obj, faceP.form_data = some [("generation_data", obj)] ∧
          obj.map Prod.fst = metadataKeys JobType.face) :=
  C7_generation_data_per_variant .face faceInput faceP (by decide)

/-- C8: the health probe returns true exactly when the GET to the health
endpoint completes with status 200; every other outcome — a raised exception
(connection refused, timeout) or any non-200 status — yields false. The model
is a total Bool-valued function, so it never raises. -/
theorem C8_health_probe_iff_200 (getResult : Except Exc RawResponse) :
    check_health getResult = true ↔
      ∃ resp, getResult = .ok resp ∧ resp.status_code = 200 := by
  cases getResult with
  | error e => simp [check_health]
  | ok resp => simp [check_health]

/-- C9 counterexample: the claim asserts observational equivalence of the
hoisted-encode implementation and the re-encode-each-attempt reference for every
input and every retry count. At `retry = 0` with an input missing a required
field they differ: the implementation raises the validation error, the reference
performs zero attempts (hence zero encodes) and returns `None`. -/
theorem C9_zero_retry_not_equivalent :
    clientFace.run_job [] 0 server500 ≠ clientFace.run_job_ref [] 0 server500 := by
  decide

/-- C9 as amended: for every input, every server behavior and every retry count
of at least 1, the implemented `run_job` (encoding hoisted before the loop) is
observationally equivalent — same outcome and same event trace — to the
reference behavior that re-runs the pure encoder at the start of each attempt. -/
theorem C9_hoisted_encode_equivalent (c : JobClient) (input : InputData)
    (retry : Int) (server : Server) (hr : 1 ≤ retry) :
    c.run_job input retry server = c.run_job_ref input retry server := by
  obtain ⟨m, hm⟩ : ∃ m, retry.toNat = m + 1 := ⟨retry.toNat - 1, by omega⟩
  cases hp : processInputs c.job_class input with
  | error e =>
    rw [JobClient.run_job, JobClient.run_job_ref, hp, hm,
      runJobRefLoop_err c.job_class input server e hp m 0]
  | ok p =>
    rw [JobClient.run_job, JobClient.run_job_ref, hp,
      runJobRefLoop_eq c.job_class input server p hp retry.toNat 0]

/-- Witness for the amended C9, at a concrete client, input and server. -/
theorem C9_hoisted_encode_equivalent_witness :
    clientFace.run_job faceInput 1 server500 =
      clientFace.run_job_ref faceInput 1 server500 :=
  C9_hoisted_encode_equivalent clientFace faceInput 1 server500 (by decide)

/-- C10: for every retry value at most 0, `run_job` still validates the input —
a missing required field raises its assertion error — and when validation
passes, it performs zero attempts (no POST, no sleep: the trace is empty) and
returns Python `None` without raising. -/
theorem C10_nonpositive_retry_returns_none (c : JobClient) (input : InputData)
    (retry : Int) (server : Server) (hr : retry ≤ 0) :
    c.run_job input retry server =
      (match processInputs c.job_class input with
       | .error e => (Except.error e, ([] : List Event))
       | .ok _ => (.ok none, [])) := by
  have h0 : retry.toNat = 0 := by omega
  cases hp : processInputs c.job_class input with
  | error e => rw [JobClient.run_job, hp]
  | ok p => rw [JobClient.run_job, hp, h0]; rfl

/-- Witness for C10: a valid face input with `retry = -1` returns `None` with an
empty event trace. -/
theorem C10_nonpositive_retry_returns_none_witness :
    clientFace.run_job faceInput (-1) server500 = (.ok none, []) := by
  rw [C10_nonpositive_retry_returns_none clientFace faceInput (-1) server500
    (by decide)]
  decide

end Workflows
